import Mathlib

/-!
Verification of the mymart repository's address / product / order handlers.

The definitions below are shallow embeddings of:
  * `src/app/api/products/[id]/route.ts` (second document): the address
    handlers GET/POST/PUT/DELETE acting on a user's embedded address list;
  * `src/models/User.ts`: the `UserSchema.pre('save')` hook that repairs
    multiple default addresses;
  * `src/app/api/products/route.ts` (POST) and
    `src/app/api/products/[id]/route.ts` (first document, PUT): product
    create and update;
  * `src/unnamed/part_000` (second document): the order PUT and DELETE
    handlers.
-/

/-- An embedded address record, as in `AddressSchema` of `src/models/User.ts`
and the `UserAddress` interface of the address route file.  The Mongo
`_id` is modelled as a plain string. -/
structure Address where
  id : String
  street : String
  city : String
  state : String
  zipCode : String
  country : String
  isDefault : Bool
  label : String
  phone : String
  deriving Repr, DecidableEq

/-- `addr.isDefault = false` (the assignment used when clearing flags). -/
def clearFlag (a : Address) : Address := { a with isDefault := false }

/-- `addr.isDefault = b`. -/
def setFlag (b : Bool) (a : Address) : Address := { a with isDefault := b }

/-- Number of addresses in the list flagged as default. -/
def countDefaults (l : List Address) : Nat := l.countP (·.isDefault)

/-- `user.addresses[i] = f(user.addresses[i])`: in-place update of the
element at index `i`; out-of-range indices leave the list unchanged. -/
def setAt : List Address → Nat → (Address → Address) → List Address
  | [], _, _ => []
  | a :: t, 0, f => f a :: t
  | a :: t, i + 1, f => a :: setAt t i f

/-- `user.addresses.splice(i, 1)`: remove the element at index `i`. -/
def removeAt : List Address → Nat → List Address
  | [], _ => []
  | _ :: t, 0 => t
  | a :: t, i + 1 => a :: removeAt t i

/-- The PUT handler's loop
`user.addresses.forEach((addr, idx) => { if (idx !== addressIndex) addr.isDefault = false })`:
clear the default flag on every address except the one at index `i`. -/
def clearOthers : Nat → List Address → List Address
  | _, [] => []
  | 0, a :: t => a :: t.map clearFlag
  | i + 1, a :: t => clearFlag a :: clearOthers i t

/-- The PUT handler's test
`user.addresses.some((addr, idx) => idx !== addressIndex && addr.isDefault)`. -/
def someOtherDefault : Nat → List Address → Bool
  | _, [] => false
  | 0, _ :: t => t.any (·.isDefault)
  | i + 1, a :: t => a.isDefault || someOtherDefault i t

/-- Index of the first default address
(`this.addresses.findIndex(a => a.isDefault)`); equals the length when no
address is default (JS returns -1, which the loop's `index ===` test can
never hit, matching). -/
def firstDefaultIdx (l : List Address) : Nat := l.findIdx (·.isDefault)

/-- The list with entry `j + i` given default flag `decide (j + i = f)` for
every `i`, all other fields untouched; `j` is the index of the head.  Used
to state what the pre-save repair loop computes. -/
def markList (f : Nat) : Nat → List Address → List Address
  | _, [] => []
  | j, a :: t => setFlag (decide (j = f)) a :: markList f (j + 1) t

/-- The repair loop body of `UserSchema.pre('save')` in `src/models/User.ts`:
`this.addresses.forEach((addr, index) => { addr.isDefault = index === this.addresses.findIndex(a => a.isDefault) })`.
JS `forEach` mutates the array while `findIndex` is re-evaluated on the
current (partially mutated) array at every iteration, hence the fold. -/
def preSaveFix (l : List Address) : List Address :=
  (List.range l.length).foldl
    (fun acc i => setAt acc i (setFlag (decide (i = firstDefaultIdx acc)))) l

/-- The whole `pre('save')` hook on a document whose address list was
modified: repair only when more than one address is flagged default. -/
def preSaveAddresses (l : List Address) : List Address :=
  if 1 < countDefaults l then preSaveFix l else l

/-- JS `String.prototype.trim()`: strip leading and trailing whitespace.
Modelled structurally over the character list so that concrete instances
evaluate inside the kernel. -/
def jsTrim (s : String) : String :=
  ⟨((s.data.dropWhile Char.isWhitespace).reverse.dropWhile
      Char.isWhitespace).reverse⟩

/-- ASCII hex digit, as accepted inside a Mongo ObjectId string. -/
def isHexChar (c : Char) : Bool :=
  c.isDigit || ('a' ≤ c && c ≤ 'f') || ('A' ≤ c && c ≤ 'F')

/-- `mongoose.Types.ObjectId.isValid` on a string: a 24-character hex
string, or any 12-character string (interpreted as 12 raw bytes). -/
def isValidObjectId (s : String) : Bool :=
  (s.length == 24 && s.toList.all isHexChar) || s.length == 12

/-- The argument record of `validateAddressData`: only the fields the
helper inspects; a `none` field was not part of the request
(`undefined` in JS), so its checks are skipped. -/
structure AddressData where
  street : Option String := none
  city : Option String := none
  state : Option String := none
  zipCode : Option String := none
  country : Option String := none
  label : Option String := none
  deriving Repr, DecidableEq

/-- `validateAddressData` of the address route file.  For a present string
field, JS `!data.x || !data.x.trim()` is equivalent to `jsTrim x = ""`; the
zip regex `/^\d+$/` on the trimmed (non-empty) zip is `all Char.isDigit`. -/
def validateAddressData (d : AddressData) : List String :=
  (match d.street with
    | some s => if jsTrim s = "" then ["Street is required"] else []
    | none => []) ++
  (match d.city with
    | some s => if jsTrim s = "" then ["City is required"] else []
    | none => []) ++
  (match d.state with
    | some s => if jsTrim s = "" then ["State is required"] else []
    | none => []) ++
  (match d.zipCode with
    | some s =>
        if jsTrim s = "" then ["ZIP code is required"]
        else if !((jsTrim s).data.all Char.isDigit) then
          ["ZIP code must contain only numbers"]
        else []
    | none => []) ++
  (match d.country with
    | some s => if jsTrim s = "" then ["Country is required"] else []
    | none => []) ++
  (match d.label with
    | some s =>
        if !(["home", "work", "other"].contains s) then
          ["Label must be one of: home, work, other"]
        else []
    | none => [])

/-- Body of the POST (add address) request; `none` = field absent. -/
structure AddAddressRequest where
  street : Option String := none
  city : Option String := none
  state : Option String := none
  zipCode : Option String := none
  country : Option String := none
  isDefault : Option Bool := none
  label : Option String := none
  phone : Option String := none
  deriving Repr, DecidableEq

/-- Body of the PUT (update address) request. -/
structure UpdateAddressRequest where
  addressId : Option String := none
  street : Option String := none
  city : Option String := none
  state : Option String := none
  zipCode : Option String := none
  country : Option String := none
  isDefault : Option Bool := none
  label : Option String := none
  phone : Option String := none
  deriving Repr, DecidableEq

/-- Error outcomes of the address handlers, with their HTTP statuses in
`addrErrorStatus`.  `internalFailure` is the catch-all 500 branch (in
particular the `TypeError` thrown by `street!.trim()` when a required
field was absent from the POST body). -/
inductive AddrError where
  | badRequest
  | invalidIdFormat
  | notFound
  | validationFailure (msgs : List String)
  | internalFailure
  deriving Repr, DecidableEq

/-- HTTP status of each address-handler error. -/
def addrErrorStatus : AddrError → Nat
  | .badRequest => 400
  | .invalidIdFormat => 400
  | .notFound => 404
  | .validationFailure _ => 400
  | .internalFailure => 500

/-- Whether an error is the ValidationFailure kind (HTTP 400 with
field-level messages). -/
def isValidationFailure : AddrError → Bool
  | .validationFailure _ => true
  | _ => false

/-- The POST (add address) handler of the address route file, from body
destructuring through `user.save()` (which runs the pre-save hook).
`newId` is the ObjectId Mongo assigns to the pushed subdocument. -/
def addAddress (l : List Address) (req : AddAddressRequest) (newId : String) :
    Except AddrError (List Address) :=
  let country := req.country.getD "Bangladesh"
  let label := req.label.getD "home"
  let phone := req.phone.getD ""
  let isDef := req.isDefault.getD false
  let errs := validateAddressData
    { street := req.street, city := req.city, state := req.state,
      zipCode := req.zipCode, country := some country, label := some label }
  if errs ≠ [] then .error (.validationFailure errs)
  else
    match req.street, req.city, req.state, req.zipCode with
    | some st, some ci, some sa, some zp =>
      let newAddr : Address :=
        { id := newId, street := jsTrim st, city := jsTrim ci,
          state := jsTrim sa, zipCode := jsTrim zp, country := jsTrim country,
          isDefault := isDef, label := label, phone := jsTrim phone }
      let cleared := if isDef && decide (0 < l.length) then l.map clearFlag else l
      let pushed :=
        if l.length = 0 then { newAddr with isDefault := true } else newAddr
      .ok (preSaveAddresses (cleared ++ [pushed]))
    | _, _, _, _ => .error .internalFailure

/-- The field assignments of the PUT handler on the target address
(street/city/state/zipCode/country trimmed, label as-is, phone trimmed);
`isDefault` is handled separately by the handler. -/
def applyFieldUpdates (req : UpdateAddressRequest) (a : Address) : Address :=
  { a with
    street := match req.street with | some s => jsTrim s | none => a.street,
    city := match req.city with | some s => jsTrim s | none => a.city,
    state := match req.state with | some s => jsTrim s | none => a.state,
    zipCode := match req.zipCode with | some s => jsTrim s | none => a.zipCode,
    country := match req.country with | some s => jsTrim s | none => a.country,
    label := req.label.getD a.label,
    phone := match req.phone with | some s => jsTrim s | none => a.phone }

/-- The `updateData` record the PUT handler feeds to `validateAddressData`
(only the fields present in the request; `isDefault` and `phone` are never
validated). -/
def toUpdateData (req : UpdateAddressRequest) : AddressData :=
  { street := req.street, city := req.city, state := req.state,
    zipCode := req.zipCode, country := req.country, label := req.label }

/-- The PUT (update address) handler: id presence and format checks,
identity lookup, validation, field updates, default-flag handling, then
`user.save()` (pre-save hook). -/
def updateAddress (l : List Address) (req : UpdateAddressRequest) :
    Except AddrError (List Address) :=
  match req.addressId with
  | none => .error .badRequest
  | some tid =>
    if tid = "" then .error .badRequest
    else if !isValidObjectId tid then .error .invalidIdFormat
    else
      let idx := l.findIdx (fun a => a.id == tid)
      if _h : idx < l.length then
        let errs := validateAddressData (toUpdateData req)
        if errs ≠ [] then .error (.validationFailure errs)
        else
          let l₁ := setAt l idx (applyFieldUpdates req)
          match req.isDefault with
          | none => .ok (preSaveAddresses l₁)
          | some b =>
            let l₂ := if b && someOtherDefault idx l₁ then clearOthers idx l₁ else l₁
            .ok (preSaveAddresses (setAt l₂ idx (setFlag b)))
      else .error .notFound

/-- The DELETE (remove address) handler: id presence and format checks,
identity lookup, splice, promotion of the first remaining address when the
removed one was the default, then `user.save()` (pre-save hook). -/
def removeAddress (l : List Address) (addressId : Option String) :
    Except AddrError (List Address) :=
  match addressId with
  | none => .error .badRequest
  | some tid =>
    if tid = "" then .error .badRequest
    else if !isValidObjectId tid then .error .invalidIdFormat
    else
      let idx := l.findIdx (fun a => a.id == tid)
      if h : idx < l.length then
        let wasDefault := (l.get ⟨idx, h⟩).isDefault
        let l₁ := removeAt l idx
        let l₂ :=
          if wasDefault && decide (0 < l₁.length) then setAt l₁ 0 (setFlag true)
          else l₁
        .ok (preSaveAddresses l₂)
      else .error .notFound

/-- One operation of the address API. -/
inductive AddrOp where
  | add (req : AddAddressRequest) (newId : String)
  | update (req : UpdateAddressRequest)
  | remove (addressId : Option String)
  deriving Repr

/-- Run one operation. -/
def applyOp (l : List Address) : AddrOp → Except AddrError (List Address)
  | .add req newId => addAddress l req newId
  | .update req => updateAddress l req
  | .remove addressId => removeAddress l addressId

/-- State transition of the stored list: every error branch of the three
handlers returns before mutating, so a failed operation leaves the
persisted list unchanged. -/
def stepOp (l : List Address) (op : AddrOp) : List Address :=
  match applyOp l op with
  | .ok l' => l'
  | .error _ => l

/-- An order document, restricted to the fields the order PUT/DELETE
handlers of `src/unnamed/part_000` touch.  Timestamps are abstract
instants (`Nat`); `statusUpdatedAt` is optional in the schema (the GET
transform spreads it only when present). -/
structure OrderDoc where
  status : String
  notes : String
  updatedAt : Nat
  statusUpdatedAt : Option Nat
  deriving Repr, DecidableEq

/-- Body of the order PUT request (the handler destructures
`{ status, notes }` and spreads the body into the update). -/
structure OrderUpdateBody where
  status : Option String := none
  notes : Option String := none
  deriving Repr, DecidableEq

/-- Errors of the order handlers. -/
inductive OrderError where
  | invalidStatus
  | notFound
  deriving Repr, DecidableEq

/-- The six admissible status values (`validStatuses` in the handler). -/
def validStatuses : List String :=
  ["pending", "confirmed", "processing", "shipped", "delivered", "cancelled"]

/-- The order PUT handler on a found order: a truthy `status` outside the
enumeration is rejected; the update spreads the body, always refreshes
`updatedAt`, and sets `statusUpdatedAt` exactly when a truthy `status` is
present.  `now` is `new Date()`. -/
def orderPut (o : OrderDoc) (body : OrderUpdateBody) (now : Nat) :
    Except OrderError OrderDoc :=
  match body.status with
  | some s =>
    if s = "" then
      .ok { o with status := s, notes := body.notes.getD o.notes, updatedAt := now }
    else if validStatuses.contains s then
      .ok { o with status := s, notes := body.notes.getD o.notes,
                   updatedAt := now, statusUpdatedAt := some now }
    else .error .invalidStatus
  | none => .ok { o with notes := body.notes.getD o.notes, updatedAt := now }

/-- The order DELETE handler on a found order: overwrite the status to
`cancelled` and refresh `updatedAt` (`statusUpdatedAt` is not part of the
update document). -/
def orderCancel (o : OrderDoc) (now : Nat) : OrderDoc :=
  { o with status := "cancelled", updatedAt := now }

/-- A product document, restricted to the fields the create handler
assembles.  Prices are JS numbers used as integers here (the claims only
involve integral prices). -/
structure ProductDoc where
  productId : String
  name : String
  description : String
  price : Int
  category : String
  image : String
  rating : Int
  reviews : Int
  deriving Repr, DecidableEq

/-- Body of the product POST (create) request; `none` = field absent. -/
structure ProductCreateBody where
  productId : Option String := none
  name : Option String := none
  description : Option String := none
  price : Option Int := none
  category : Option String := none
  image : Option String := none
  rating : Option Int := none
  reviews : Option Int := none
  deriving Repr, DecidableEq

/-- Body of the product PUT (update) request, restricted to the fields the
handler checks. -/
structure ProductUpdateBody where
  name : Option String := none
  price : Option Int := none
  deriving Repr, DecidableEq

/-- Errors of the product handlers, with statuses in
`productErrorStatus`. -/
inductive ProductError where
  | missingFields
  | duplicateId
  | nameRequired
  | negativePrice
  | notFound
  | internal
  deriving Repr, DecidableEq

/-- HTTP status of each product-handler error, as returned by the two
route files (`duplicateId` is the create handler's
`'Product ID already exists.'` response). -/
def productErrorStatus : ProductError → Nat
  | .missingFields => 400
  | .duplicateId => 400
  | .nameRequired => 400
  | .negativePrice => 400
  | .notFound => 404
  | .internal => 500

/-- The product POST (create) handler of `src/app/api/products/route.ts`:
the required-fields check is JS truthiness
(`!productId || !name || !description || !price || !category || !image`),
so an absent field, an empty string, or the number 0 all count as missing;
then the duplicate-`productId` lookup; then creation with
`rating: body.rating || 0` and `reviews: body.reviews || 0`. -/
def createProduct (existing : List ProductDoc) (body : ProductCreateBody) :
    Except ProductError ProductDoc :=
  match body.productId, body.name, body.description, body.price,
        body.category, body.image with
  | some pid, some nm, some ds, some pr, some cat, some img =>
    if pid = "" || nm = "" || ds = "" || pr == 0 || cat = "" || img = "" then
      .error .missingFields
    else if existing.any (fun p => p.productId == pid) then
      .error .duplicateId
    else
      .ok { productId := pid, name := nm, description := ds, price := pr,
            category := cat, image := img,
            rating := if body.rating.getD 0 == 0 then 0 else body.rating.getD 0,
            reviews := if body.reviews.getD 0 == 0 then 0 else body.reviews.getD 0 }
  | _, _, _, _, _, _ => .error .missingFields

/-- The validation phase of the product PUT handler of
`src/app/api/products/[id]/route.ts`: `!body.name || !body.name.trim()`
rejects a missing or blank name; `body.price && body.price < 0` rejects a
negative price (0 and absent skip the check); on success the body is
merged into the found product. -/
def updateProduct (p : ProductDoc) (body : ProductUpdateBody) :
    Except ProductError ProductDoc :=
  match body.name with
  | none => .error .nameRequired
  | some nm =>
    if jsTrim nm = "" then .error .nameRequired
    else if !(body.price.getD 0 == 0) && body.price.getD 0 < 0 then
      .error .negativePrice
    else .ok { p with name := nm, price := body.price.getD p.price }

/-! ### Basic lemmas about the list helpers -/

theorem countDefaults_nil : countDefaults [] = 0 := rfl

theorem countDefaults_cons (a : Address) (t : List Address) :
    countDefaults (a :: t) =
      countDefaults t + (if a.isDefault then 1 else 0) := by
  simp [countDefaults, List.countP_cons]

theorem setAt_length (l : List Address) (i : Nat) (f : Address → Address) :
    (setAt l i f).length = l.length := by
  induction l generalizing i with
  | nil => rfl
  | cons a t ih =>
    cases i with
    | zero => rfl
    | succ j => simpa [setAt] using ih j

theorem get_setAt (l : List Address) (i : Nat) (f : Address → Address)
    (j : Nat) (h : j < (setAt l i f).length) (h' : j < l.length) :
    (setAt l i f).get ⟨j, h⟩ =
      if j = i then f (l.get ⟨j, h'⟩) else l.get ⟨j, h'⟩ := by
  induction l generalizing i j with
  | nil => cases h'
  | cons a t ih =>
    cases i with
    | zero =>
      cases j with
      | zero => simp [setAt]
      | succ k => simp [setAt]
    | succ m =>
      cases j with
      | zero => simp [setAt]
      | succ k =>
        have hk : k < (setAt t m f).length := by
          simpa [setAt] using h
        have hk' : k < t.length := by simpa using h'
        simpa [setAt, Nat.succ_eq_add_one] using ih m k hk hk'

theorem removeAt_length (l : List Address) (i : Nat) (h : i < l.length) :
    (removeAt l i).length = l.length - 1 := by
  induction l generalizing i with
  | nil => cases h
  | cons a t ih =>
    cases i with
    | zero => simp [removeAt]
    | succ j =>
      have hj : j < t.length := by simpa using h
      cases t with
      | nil => cases hj
      | cons b u => simpa [removeAt] using ih j hj

theorem clearOthers_length (i : Nat) (l : List Address) :
    (clearOthers i l).length = l.length := by
  induction l generalizing i with
  | nil => simp [clearOthers]
  | cons a t ih =>
    cases i with
    | zero => simp [clearOthers]
    | succ m => simpa [clearOthers] using ih m

theorem clearFlag_isDefault (a : Address) : (clearFlag a).isDefault = false := rfl

theorem setFlag_isDefault (b : Bool) (a : Address) :
    (setFlag b a).isDefault = b := rfl

theorem applyFieldUpdates_isDefault (req : UpdateAddressRequest) (a : Address) :
    (applyFieldUpdates req a).isDefault = a.isDefault := rfl

theorem countDefaults_map_clearFlag (l : List Address) :
    countDefaults (l.map clearFlag) = 0 := by
  simp [countDefaults, List.countP_map, Function.comp, clearFlag]

theorem countDefaults_setAt_preserve (l : List Address) (i : Nat)
    (f : Address → Address) (hf : ∀ a, (f a).isDefault = a.isDefault) :
    countDefaults (setAt l i f) = countDefaults l := by
  induction l generalizing i with
  | nil => rfl
  | cons a t ih =>
    cases i with
    | zero => simp [setAt, countDefaults_cons, hf a]
    | succ m => simp [setAt, countDefaults_cons, ih m]

theorem countDefaults_setAt_false_le (l : List Address) (i : Nat) :
    countDefaults (setAt l i (setFlag false)) ≤ countDefaults l := by
  induction l generalizing i with
  | nil => exact Nat.le_refl _
  | cons a t ih =>
    cases i with
    | zero =>
      simp [setAt, countDefaults_cons, setFlag_isDefault]
    | succ m =>
      simp only [setAt, countDefaults_cons]
      exact Nat.add_le_add_right (ih m) _

theorem countDefaults_removeAt_le (l : List Address) (i : Nat) :
    countDefaults (removeAt l i) ≤ countDefaults l := by
  induction l generalizing i with
  | nil => exact Nat.le_refl _
  | cons a t ih =>
    cases i with
    | zero =>
      simp only [removeAt, countDefaults_cons]
      omega
    | succ m =>
      simp only [removeAt, countDefaults_cons]
      exact Nat.add_le_add_right (ih m) _

theorem countDefaults_removeAt_of_default (l : List Address) (i : Nat)
    (h : i < l.length) (hd : (l.get ⟨i, h⟩).isDefault = true) :
    countDefaults (removeAt l i) + 1 = countDefaults l := by
  induction l generalizing i with
  | nil => cases h
  | cons a t ih =>
    cases i with
    | zero =>
      have : a.isDefault = true := hd
      simp [removeAt, countDefaults_cons, this]
    | succ m =>
      have hm : m < t.length := by simpa using h
      have hd' : (t.get ⟨m, hm⟩).isDefault = true := hd
      have := ih m hm hd'
      simp only [removeAt, countDefaults_cons]
      omega

theorem countDefaults_eq_zero_of_any_false (l : List Address)
    (h : l.any (·.isDefault) = false) : countDefaults l = 0 := by
  refine List.countP_eq_zero.mpr ?_
  intro a ha
  exact (List.any_eq_false.mp h) a ha

theorem countDefaults_setAt_clearOthers_le (l : List Address) (i : Nat) :
    countDefaults (setAt (clearOthers i l) i (setFlag true)) ≤ 1 := by
  induction l generalizing i with
  | nil => simp [clearOthers, setAt, countDefaults_nil]
  | cons a t ih =>
    cases i with
    | zero =>
      simp [clearOthers, setAt, countDefaults_cons, countDefaults_map_clearFlag,
        setFlag_isDefault]
    | succ m =>
      simpa [clearOthers, setAt, countDefaults_cons, clearFlag_isDefault]
        using ih m

theorem countDefaults_setAt_clearOthers_eq (l : List Address) (i : Nat)
    (h : i < l.length) :
    countDefaults (setAt (clearOthers i l) i (setFlag true)) = 1 := by
  induction l generalizing i with
  | nil => cases h
  | cons a t ih =>
    cases i with
    | zero =>
      simp [clearOthers, setAt, countDefaults_cons, countDefaults_map_clearFlag,
        setFlag_isDefault]
    | succ m =>
      have hm : m < t.length := by simpa using h
      simpa [clearOthers, setAt, countDefaults_cons, clearFlag_isDefault]
        using ih m hm

theorem countDefaults_setAt_true_of_noOther (l : List Address) (i : Nat)
    (h : someOtherDefault i l = false) :
    countDefaults (setAt l i (setFlag true)) ≤ 1 := by
  induction l generalizing i with
  | nil => simp [setAt, countDefaults_nil]
  | cons a t ih =>
    cases i with
    | zero =>
      have h0 : t.any (·.isDefault) = false := by simpa [someOtherDefault] using h
      simp [setAt, countDefaults_cons, countDefaults_eq_zero_of_any_false t h0,
        setFlag_isDefault]
    | succ m =>
      have h1 : a.isDefault = false ∧ someOtherDefault m t = false := by
        simpa [someOtherDefault, Bool.or_eq_false_iff] using h
      simpa [setAt, countDefaults_cons, h1.1] using ih m h1.2

theorem countDefaults_setAt_zero_true (l : List Address)
    (h : countDefaults l = 0) (hl : 0 < l.length) :
    countDefaults (setAt l 0 (setFlag true)) = 1 := by
  cases l with
  | nil => cases hl
  | cons a t =>
    have h0 : countDefaults t = 0 := by
      have := countDefaults_cons a t
      omega
    simp [setAt, countDefaults_cons, h0, setFlag_isDefault]

theorem someOtherDefault_true_of (l : List Address) (i j : Nat)
    (hj : j < l.length) (hne : j ≠ i)
    (hd : (l.get ⟨j, hj⟩).isDefault = true) :
    someOtherDefault i l = true := by
  induction l generalizing i j with
  | nil => cases hj
  | cons a t ih =>
    cases j with
    | zero =>
      cases i with
      | zero => exact absurd rfl hne
      | succ m =>
        have ha : a.isDefault = true := hd
        simp [someOtherDefault, ha]
    | succ k =>
      have hk : k < t.length := by simpa using hj
      have hd' : (t.get ⟨k, hk⟩).isDefault = true := hd
      cases i with
      | zero =>
        have : t.any (·.isDefault) = true :=
          List.any_eq_true.mpr ⟨t.get ⟨k, hk⟩, t.get_mem k hk, hd'⟩
        simpa [someOtherDefault] using this
      | succ m =>
        have hne' : k ≠ m := by omega
        simp [someOtherDefault, ih m k hk hne' hd']

theorem preSaveAddresses_of_le_one (l : List Address)
    (h : countDefaults l ≤ 1) : preSaveAddresses l = l := by
  have : ¬ 1 < countDefaults l := by omega
  simp [preSaveAddresses, this]

theorem countDefaults_preSave_le_one (l : List Address)
    (h : countDefaults l ≤ 1) : countDefaults (preSaveAddresses l) ≤ 1 := by
  rw [preSaveAddresses_of_le_one l h]; exact h


theorem countDefaults_append (l₁ l₂ : List Address) :
    countDefaults (l₁ ++ l₂) = countDefaults l₁ + countDefaults l₂ :=
  List.countP_append _ _ _

theorem countDefaults_singleton (a : Address) :
    countDefaults [a] = if a.isDefault then 1 else 0 := by
  simp [countDefaults, List.countP_cons]

/-! ### The three handlers preserve the at-most-one-default property -/

theorem addAddress_ok_count (l : List Address) (req : AddAddressRequest)
    (nid : String) (l' : List Address)
    (h : addAddress l req nid = Except.ok l')
    (hc : countDefaults l ≤ 1) : countDefaults l' ≤ 1 := by
  simp only [addAddress] at h
  split at h
  · simp at h
  · split at h
    · simp only [Except.ok.injEq] at h
      subst h
      refine countDefaults_preSave_le_one _ ?_
      rw [countDefaults_append]
      by_cases hlen : l.length = 0
      · have hnil := List.length_eq_zero.mp hlen
        subst hnil
        simp [countDefaults_nil, countDefaults_singleton]
      · rcases Bool.eq_false_or_eq_true (req.isDefault.getD false) with hb | hb
        · simp [hb, hlen, Nat.pos_of_ne_zero hlen, countDefaults_singleton,
            countDefaults_map_clearFlag]
        · simpa [hb, hlen, countDefaults_singleton] using hc
    · simp at h

theorem updateAddress_ok_count (l : List Address) (req : UpdateAddressRequest)
    (l' : List Address) (h : updateAddress l req = Except.ok l')
    (hc : countDefaults l ≤ 1) : countDefaults l' ≤ 1 := by
  simp only [updateAddress] at h
  repeat' split at h
  all_goals try exact Except.noConfusion h
  · injection h with h
    subst h
    refine countDefaults_preSave_le_one _ ?_
    rw [countDefaults_setAt_preserve _ _ _ (applyFieldUpdates_isDefault req)]
    exact hc
  · rename_i b heq hcond
    injection h with h
    subst h
    have hb : b = true := by
      cases b
      · simp at hcond
      · rfl
    subst hb
    exact countDefaults_preSave_le_one _ (countDefaults_setAt_clearOthers_le _ _)
  · rename_i b heq hcond
    injection h with h
    subst h
    refine countDefaults_preSave_le_one _ ?_
    rcases Bool.eq_false_or_eq_true b with hb | hb
    · subst hb
      refine countDefaults_setAt_true_of_noOther _ _ ?_
      simpa using hcond
    · subst hb
      refine le_trans (countDefaults_setAt_false_le _ _) ?_
      rw [countDefaults_setAt_preserve _ _ _ (applyFieldUpdates_isDefault req)]
      exact hc

theorem removeAddress_ok_count (l : List Address) (aid : Option String)
    (l' : List Address) (h : removeAddress l aid = Except.ok l')
    (hc : countDefaults l ≤ 1) : countDefaults l' ≤ 1 := by
  simp only [removeAddress] at h
  repeat' split at h
  all_goals try exact Except.noConfusion h
  · rename_i tid hne hval hlt hcond
    injection h with h
    subst h
    refine countDefaults_preSave_le_one _ ?_
    obtain ⟨hwd, hlen⟩ :
        (l.get ⟨List.findIdx (fun a => a.id == tid) l, hlt⟩).isDefault = true ∧
          0 < (removeAt l (List.findIdx (fun a => a.id == tid) l)).length := by
      simpa using hcond
    have h1 := countDefaults_removeAt_of_default l _ hlt hwd
    have h0 : countDefaults (removeAt l (List.findIdx (fun a => a.id == tid) l)) = 0 := by
      omega
    rw [countDefaults_setAt_zero_true _ h0 hlen]
  · rename_i tid hne hval hlt hcond
    injection h with h
    subst h
    exact countDefaults_preSave_le_one _
      (le_trans (countDefaults_removeAt_le _ _) hc)

theorem stepOp_count_le (l : List Address) (op : AddrOp)
    (hc : countDefaults l ≤ 1) : countDefaults (stepOp l op) ≤ 1 := by
  cases hop : applyOp l op with
  | error e =>
    have hs : stepOp l op = l := by simp [stepOp, hop]
    rw [hs]; exact hc
  | ok l2 =>
    have hs : stepOp l op = l2 := by simp [stepOp, hop]
    rw [hs]
    cases op with
    | add req nid => exact addAddress_ok_count l req nid l2 hop hc
    | update req => exact updateAddress_ok_count l req l2 hop hc
    | remove aid => exact removeAddress_ok_count l aid l2 hop hc

/-- Claim C1, amended: along every sequence of add/update/remove operations
starting from a list with at most one default address, the persisted list
keeps at most one default address after each operation (a failed operation
leaves the list unchanged).  The original "exactly one when non-empty"
part fails, see `c1_counterexample`. -/
theorem c1_sequences_at_most_one_default (ops : List AddrOp) (l : List Address)
    (hc : countDefaults l ≤ 1) :
    countDefaults (List.foldl stepOp l ops) ≤ 1 := by
  induction ops generalizing l with
  | nil => exact hc
  | cons op rest ih => exact ih (stepOp l op) (stepOp_count_le l op hc)

/-- A concrete stored address, used by several concrete scenarios. -/
def addrA : Address :=
  { id := "aaaaaaaaaaaaaaaaaaaaaaaa", street := "1 Main", city := "Dhaka",
    state := "DH", zipCode := "1000", country := "Bangladesh",
    isDefault := true, label := "home", phone := "" }

/-- A second concrete stored address (not default). -/
def addrB : Address :=
  { id := "bbbbbbbbbbbbbbbbbbbbbbbb", street := "2 Side", city := "Bogra",
    state := "BG", zipCode := "5800", country := "Bangladesh",
    isDefault := false, label := "work", phone := "" }

/-- A request that clears the default flag of `addrA`. -/
def reqClearDefault : UpdateAddressRequest :=
  { addressId := some "aaaaaaaaaaaaaaaaaaaaaaaa", isDefault := some false }

/-- Counterexample to claim C1 as stated: starting from the valid state
`[addrA]` (one address, exactly one default), `updateAddress` with
`isDefault = false` succeeds and leaves a non-empty list with zero default
addresses, violating "exactly one whenever the list is non-empty". -/
theorem c1_counterexample :
    updateAddress [addrA] reqClearDefault = Except.ok [setFlag false addrA] ∧
    countDefaults [addrA] = 1 ∧
    (setFlag false addrA :: []).length = 1 ∧
    countDefaults [setFlag false addrA] = 0 := by
  refine ⟨rfl, by decide, rfl, by decide⟩

/-- Witness for `c1_sequences_at_most_one_default`: a concrete two-step run
(add a default address to the empty list, then clear its flag). -/
theorem c1_sequences_at_most_one_default_witness :
    countDefaults
      (List.foldl stepOp []
        [AddrOp.add
          { street := some "1 Main", city := some "Dhaka", state := some "DH",
            zipCode := some "1000" } "aaaaaaaaaaaaaaaaaaaaaaaa",
         AddrOp.update reqClearDefault]) ≤ 1 :=
  c1_sequences_at_most_one_default _ [] (by decide)

theorem get_clearOthers (i : Nat) (l : List Address) (j : Nat)
    (h : j < (clearOthers i l).length) (h' : j < l.length) :
    (clearOthers i l).get ⟨j, h⟩ =
      if j = i then l.get ⟨j, h'⟩ else clearFlag (l.get ⟨j, h'⟩) := by
  induction l generalizing i j with
  | nil => cases h'
  | cons a t ih =>
    cases i with
    | zero =>
      cases j with
      | zero => simp [clearOthers]
      | succ k =>
        have hk : k < t.length := by simpa using h'
        simp [clearOthers, List.getElem_map]
    | succ m =>
      cases j with
      | zero => simp [clearOthers]
      | succ k =>
        have hk : k < (clearOthers m t).length := by
          simpa [clearOthers] using h
        have hk' : k < t.length := by simpa using h'
        simpa [clearOthers, Nat.succ_eq_add_one] using ih m k hk hk'

theorem clearFlag_clearFlag (a : Address) :
    clearFlag (clearFlag a) = clearFlag a := rfl

theorem clearFlag_setFlag (b : Bool) (a : Address) :
    clearFlag (setFlag b a) = clearFlag a := rfl

theorem exists_default_index (l : List Address) (h : 0 < countDefaults l) :
    ∃ j, ∃ hj : j < l.length, (l.get ⟨j, hj⟩).isDefault = true := by
  obtain ⟨a, ha, hd⟩ := List.countP_pos_iff.mp h
  obtain ⟨i, hi⟩ := List.mem_iff_get.mp ha
  exact ⟨i.1, i.2, by rw [hi]; exact hd⟩

/-- Claim C2: on a list with exactly one default address, updating a
different address with `isDefault = true` yields exactly one default (the
target), the previously-default address loses its flag, and no address
other than the target is changed in any other field.  The caller observes
only the returned list, in which never two addresses are default. -/
theorem c2_update_to_default_switches (l : List Address) (tid : String)
    (idx : Nat) (req : UpdateAddressRequest)
    (hreq : req.addressId = some tid)
    (hdef : req.isDefault = some true)
    (hval : isValidObjectId tid = true)
    (hfind : List.findIdx (fun a => a.id == tid) l = idx)
    (hlt : idx < l.length)
    (hcount : countDefaults l = 1)
    (htarget : (l.get ⟨idx, hlt⟩).isDefault = false)
    (hvalid : validateAddressData (toUpdateData req) = []) :
    ∃ l', updateAddress l req = Except.ok l' ∧
      l'.length = l.length ∧
      countDefaults l' = 1 ∧
      (∀ j (hj : j < l'.length),
        (l'.get ⟨j, hj⟩).isDefault = decide (j = idx)) ∧
      (∀ j (hj : j < l'.length) (hj' : j < l.length), j ≠ idx →
        clearFlag (l'.get ⟨j, hj⟩) = clearFlag (l.get ⟨j, hj'⟩)) := by
  have htid : tid ≠ "" := by
    intro he
    rw [he] at hval
    exact absurd hval (by decide)
  obtain ⟨p, hp, hpd⟩ := exists_default_index l (by omega)
  have hpne : p ≠ idx := by
    intro he
    subst he
    have hpd' : (l.get ⟨p, hlt⟩).isDefault = true := hpd
    rw [htarget] at hpd'
    exact absurd hpd' (by decide)
  have hp₁ : p < (setAt l idx (applyFieldUpdates req)).length := by
    rw [setAt_length]; exact hp
  have hflag : ((setAt l idx (applyFieldUpdates req)).get ⟨p, hp₁⟩).isDefault = true := by
    rw [get_setAt l idx _ p hp₁ hp, if_neg hpne]
    exact hpd
  have hso : someOtherDefault idx (setAt l idx (applyFieldUpdates req)) = true :=
    someOtherDefault_true_of _ idx p hp₁ hpne hflag
  have hcnt : countDefaults
      (setAt (clearOthers idx (setAt l idx (applyFieldUpdates req))) idx
        (setFlag true)) = 1 := by
    apply countDefaults_setAt_clearOthers_eq
    rw [setAt_length]; exact hlt
  have hpre : preSaveAddresses
      (setAt (clearOthers idx (setAt l idx (applyFieldUpdates req))) idx
        (setFlag true)) =
      setAt (clearOthers idx (setAt l idx (applyFieldUpdates req))) idx
        (setFlag true) :=
    preSaveAddresses_of_le_one _ (le_of_eq hcnt)
  have hres : updateAddress l req =
      Except.ok (preSaveAddresses
        (setAt (clearOthers idx (setAt l idx (applyFieldUpdates req))) idx
          (setFlag true))) := by
    simp [updateAddress, hreq, htid, hval, hfind, hvalid, hdef, hlt, hso]
  refine ⟨_, by rw [hres, hpre], ?_, hcnt, ?_, ?_⟩
  · rw [setAt_length, clearOthers_length, setAt_length]
  · intro j hj
    have hj' : j < l.length := by
      rw [setAt_length, clearOthers_length, setAt_length] at hj
      exact hj
    have hj₂ : j < (clearOthers idx (setAt l idx (applyFieldUpdates req))).length := by
      rw [clearOthers_length, setAt_length]; exact hj'
    rw [get_setAt _ idx _ j hj hj₂]
    by_cases hji : j = idx
    · rw [if_pos hji]
      simp [setFlag_isDefault, hji]
    · rw [if_neg hji]
      have hj₃ : j < (setAt l idx (applyFieldUpdates req)).length := by
        rw [setAt_length]; exact hj'
      rw [get_clearOthers idx _ j hj₂ hj₃, if_neg hji]
      simp [clearFlag_isDefault, hji]
  · intro j hj hj' hji
    have hj₂ : j < (clearOthers idx (setAt l idx (applyFieldUpdates req))).length := by
      rw [clearOthers_length, setAt_length]; exact hj'
    have hj₃ : j < (setAt l idx (applyFieldUpdates req)).length := by
      rw [setAt_length]; exact hj'
    rw [get_setAt _ idx _ j hj hj₂, if_neg hji,
      get_clearOthers idx _ j hj₂ hj₃, if_neg hji, clearFlag_clearFlag,
      get_setAt l idx _ j hj₃ hj', if_neg hji]

/-- The concrete request used in the C2 witness: make `addrB` default. -/
def reqMakeBDefault : UpdateAddressRequest :=
  { addressId := some "bbbbbbbbbbbbbbbbbbbbbbbb", isDefault := some true }

/-- Witness for `c2_update_to_default_switches` on the concrete state
`[addrA (default), addrB]`. -/
theorem c2_update_to_default_switches_witness :
    ∃ l', updateAddress [addrA, addrB] reqMakeBDefault = Except.ok l' ∧
      l'.length = ([addrA, addrB] : List Address).length ∧
      countDefaults l' = 1 ∧
      (∀ j (hj : j < l'.length),
        (l'.get ⟨j, hj⟩).isDefault = decide (j = 1)) ∧
      (∀ j (hj : j < l'.length)
        (hj' : j < ([addrA, addrB] : List Address).length), j ≠ 1 →
        clearFlag (l'.get ⟨j, hj⟩) =
          clearFlag (([addrA, addrB] : List Address).get ⟨j, hj'⟩)) :=
  c2_update_to_default_switches [addrA, addrB] "bbbbbbbbbbbbbbbbbbbbbbbb" 1
    reqMakeBDefault rfl rfl (by decide) (by decide) (by decide) (by decide)
    (by decide) rfl

/-- Claim C3: removing the (unique) default address promotes exactly the
first remaining address, by current list order, to default; if nothing
remains, no address is default.  The result is the spliced list with the
head's flag set (`setAt … 0 (setFlag true)` is the identity on `[]`), and
its number of defaults is `min 1 (length of the remaining list)`. -/
theorem c3_remove_default_promotes_first (l : List Address) (tid : String)
    (idx : Nat)
    (hval : isValidObjectId tid = true)
    (hfind : List.findIdx (fun a => a.id == tid) l = idx)
    (hlt : idx < l.length)
    (hcount : countDefaults l ≤ 1)
    (hdef : (l.get ⟨idx, hlt⟩).isDefault = true) :
    removeAddress l (some tid) =
      Except.ok (setAt (removeAt l idx) 0 (setFlag true)) ∧
    countDefaults (setAt (removeAt l idx) 0 (setFlag true)) =
      min 1 (removeAt l idx).length := by
  have htid : tid ≠ "" := by
    intro he; rw [he] at hval; exact absurd hval (by decide)
  have hc1 := countDefaults_removeAt_of_default l idx hlt hdef
  have h0 : countDefaults (removeAt l idx) = 0 := by omega
  have hdef2 : (l[idx]).isDefault = true := hdef
  by_cases hrem : 0 < (removeAt l idx).length
  · have hcnt := countDefaults_setAt_zero_true (removeAt l idx) h0 hrem
    have hres : removeAddress l (some tid) =
        Except.ok (preSaveAddresses (setAt (removeAt l idx) 0 (setFlag true))) := by
      simp [removeAddress, htid, hval, hfind, hlt, hdef2, hrem]
    constructor
    · rw [hres, preSaveAddresses_of_le_one _ (le_of_eq hcnt)]
    · rw [hcnt]; omega
  · have hnil : removeAt l idx = [] := List.length_eq_zero.mp (by omega)
    have hres : removeAddress l (some tid) =
        Except.ok (preSaveAddresses (removeAt l idx)) := by
      simp [removeAddress, htid, hval, hfind, hlt, hdef2, hrem]
    constructor
    · rw [hres, hnil]; rfl
    · rw [hnil]; decide

/-- Witness for `c3_remove_default_promotes_first` on the concrete state
`[addrA (default), addrB]`: removing `addrA` promotes `addrB`. -/
theorem c3_remove_default_promotes_first_witness :
    removeAddress [addrA, addrB] (some "aaaaaaaaaaaaaaaaaaaaaaaa") =
      Except.ok (setAt (removeAt [addrA, addrB] 0) 0 (setFlag true)) ∧
    countDefaults (setAt (removeAt [addrA, addrB] 0) 0 (setFlag true)) =
      min 1 (removeAt [addrA, addrB] 0).length :=
  c3_remove_default_promotes_first [addrA, addrB] "aaaaaaaaaaaaaaaaaaaaaaaa" 0
    (by decide) (by decide) (by decide) (by decide) (by decide)

/-- Claim C4: whenever `addAddress` succeeds on an empty address list, the
stored list is exactly the one new address and it is flagged default,
regardless of the requested `isDefault` value. -/
theorem c4_first_address_forced_default (req : AddAddressRequest)
    (nid : String) (l' : List Address)
    (h : addAddress [] req nid = Except.ok l') :
    ∃ a, l' = [a] ∧ a.isDefault = true := by
  simp only [addAddress] at h
  split at h
  · exact Except.noConfusion h
  · split at h
    · simp [preSaveAddresses, countDefaults_singleton] at h
      exact ⟨_, h.symm, rfl⟩
    · exact Except.noConfusion h

/-- The concrete request used in the C4 witness: first address explicitly
requested as non-default. -/
def reqFirstAddr : AddAddressRequest :=
  { street := some "9 New Rd", city := some "Sylhet", state := some "SY",
    zipCode := some "3100", isDefault := some false }

/-- The address stored by `addAddress [] reqFirstAddr`. -/
def addrFirst : Address :=
  { id := "cccccccccccccccccccccccc", street := "9 New Rd", city := "Sylhet",
    state := "SY", zipCode := "3100", country := "Bangladesh",
    isDefault := true, label := "home", phone := "" }

/-- Witness for `c4_first_address_forced_default`: the concrete success
equation is discharged by evaluation. -/
theorem c4_first_address_forced_default_witness :
    ∃ a, [addrFirst] = [a] ∧ a.isDefault = true :=
  c4_first_address_forced_default reqFirstAddr "cccccccccccccccccccccccc"
    [addrFirst] rfl

/-- Claim C5, amended: a well-formed (ObjectId-format) `addressId` that is
absent from the user's list makes both `updateAddress` and `removeAddress`
fail with NotFound, leaving the stored list unchanged.  (A malformed
`addressId` instead fails earlier with the invalid-id-format error, see
`c5_counterexample`; the list is also unchanged then.) -/
theorem c5_absent_id_not_found (l : List Address) (req : UpdateAddressRequest)
    (tid : String)
    (hreq : req.addressId = some tid)
    (hval : isValidObjectId tid = true)
    (habs : List.findIdx (fun a => a.id == tid) l = l.length) :
    updateAddress l req = Except.error AddrError.notFound ∧
    removeAddress l (some tid) = Except.error AddrError.notFound ∧
    stepOp l (AddrOp.update req) = l ∧
    stepOp l (AddrOp.remove (some tid)) = l := by
  have htid : tid ≠ "" := by
    intro he; rw [he] at hval; exact absurd hval (by decide)
  have hnlt : ¬ List.findIdx (fun a => a.id == tid) l < l.length := by
    rw [habs]; omega
  have h1 : updateAddress l req = Except.error AddrError.notFound := by
    simp [updateAddress, hreq, htid, hval, hnlt]
  have h2 : removeAddress l (some tid) = Except.error AddrError.notFound := by
    simp [removeAddress, htid, hval, hnlt]
  exact ⟨h1, h2, by simp [stepOp, applyOp, h1], by simp [stepOp, applyOp, h2]⟩

/-- Witness for `c5_absent_id_not_found`: the id of `addrB` is well-formed
but absent from `[addrA]`. -/
theorem c5_absent_id_not_found_witness :
    updateAddress [addrA] reqMakeBDefault = Except.error AddrError.notFound ∧
    removeAddress [addrA] (some "bbbbbbbbbbbbbbbbbbbbbbbb") =
      Except.error AddrError.notFound ∧
    stepOp [addrA] (AddrOp.update reqMakeBDefault) = [addrA] ∧
    stepOp [addrA] (AddrOp.remove (some "bbbbbbbbbbbbbbbbbbbbbbbb")) = [addrA] :=
  c5_absent_id_not_found [addrA] reqMakeBDefault "bbbbbbbbbbbbbbbbbbbbbbbb"
    rfl (by decide) (by decide)

/-- Counterexample to C5 as stated: the `addressId` `"abc"` identifies no
address in `[addrA]`, yet both handlers fail with the 400
invalid-id-format error, not with the 404 NotFound. -/
theorem c5_counterexample :
    updateAddress [addrA] { addressId := some "abc", isDefault := some true } =
      Except.error AddrError.invalidIdFormat ∧
    removeAddress [addrA] (some "abc") =
      Except.error AddrError.invalidIdFormat ∧
    AddrError.invalidIdFormat ≠ AddrError.notFound ∧
    addrErrorStatus AddrError.invalidIdFormat = 400 ∧
    addrErrorStatus AddrError.notFound = 404 :=
  ⟨rfl, rfl, by decide, rfl, rfl⟩

/-- Claim C6, amended: `addAddress` with a present, non-blank, non-numeric
zip code fails with ValidationFailure carrying the zip message, and
appends nothing.  (An *omitted* required field is not caught by this
validation: it slips past the defined-fields-only checks and the handler
then fails with the 500 InternalFailure, see `c6_counterexample`; nothing
is appended in that case either.) -/
theorem c6_bad_zip_validation (l : List Address) (req : AddAddressRequest)
    (nid : String) (z : String)
    (hz : req.zipCode = some z)
    (hne : jsTrim z ≠ "")
    (hnd : (jsTrim z).data.all Char.isDigit = false) :
    (∃ msgs, addAddress l req nid =
        Except.error (AddrError.validationFailure msgs) ∧
      "ZIP code must contain only numbers" ∈ msgs) ∧
    stepOp l (AddrOp.add req nid) = l := by
  have hmem : "ZIP code must contain only numbers" ∈ validateAddressData
      { street := req.street, city := req.city, state := req.state,
        zipCode := req.zipCode, country := some (req.country.getD "Bangladesh"),
        label := some (req.label.getD "home") } := by
    simp [validateAddressData, hz, hne, hnd]
  have herr : validateAddressData
      { street := req.street, city := req.city, state := req.state,
        zipCode := req.zipCode, country := some (req.country.getD "Bangladesh"),
        label := some (req.label.getD "home") } ≠ [] := by
    intro he
    rw [he] at hmem
    exact absurd hmem (by simp)
  have hres : addAddress l req nid = Except.error
      (AddrError.validationFailure (validateAddressData
        { street := req.street, city := req.city, state := req.state,
          zipCode := req.zipCode,
          country := some (req.country.getD "Bangladesh"),
          label := some (req.label.getD "home") })) := by
    simp [addAddress, herr]
  exact ⟨⟨_, hres, hmem⟩, by simp [stepOp, applyOp, hres]⟩

/-- The concrete add request of the spec's zip scenario (zip `"12A45"`). -/
def reqBadZip : AddAddressRequest :=
  { street := some "5 Mid Rd", city := some "Khulna", state := some "KH",
    zipCode := some "12A45" }

/-- Witness for `c6_bad_zip_validation` at the spec's own example input. -/
theorem c6_bad_zip_validation_witness :
    (∃ msgs, addAddress [] reqBadZip "cccccccccccccccccccccccc" =
        Except.error (AddrError.validationFailure msgs) ∧
      "ZIP code must contain only numbers" ∈ msgs) ∧
    stepOp [] (AddrOp.add reqBadZip "cccccccccccccccccccccccc") = [] :=
  c6_bad_zip_validation [] reqBadZip "cccccccccccccccccccccccc" "12A45"
    rfl (by decide) (by decide)

/-- An add request with the street omitted and every present field valid. -/
def reqNoStreet : AddAddressRequest :=
  { city := some "Comilla", state := some "CM", zipCode := some "3500" }

/-- Counterexample to C6 as stated: omitting the required street makes
`addAddress` fail with the 500 InternalFailure (the `street!.trim()`
TypeError), not with a ValidationFailure; nothing is appended. -/
theorem c6_counterexample :
    addAddress [] reqNoStreet "cccccccccccccccccccccccc" =
      Except.error AddrError.internalFailure ∧
    isValidationFailure AddrError.internalFailure = false ∧
    addrErrorStatus AddrError.internalFailure = 500 ∧
    stepOp [] (AddrOp.add reqNoStreet "cccccccccccccccccccccccc") = [] :=
  ⟨rfl, rfl, rfl, rfl⟩

/-- A concrete order in flight (its last status change was at instant 5). -/
def orderC : OrderDoc :=
  { status := "shipped", notes := "", updatedAt := 7, statusUpdatedAt := some 5 }

/-- Counterexample to C8 as stated: cancelling `orderC` at instant 10
changes the status to `cancelled` and refreshes `updatedAt`, but
`statusUpdatedAt` keeps its old value 5 — the cancellation's status change
is not recorded there. -/
theorem c8_counterexample :
    (orderCancel orderC 10).status = "cancelled" ∧
    orderC.status ≠ "cancelled" ∧
    (orderCancel orderC 10).updatedAt = 10 ∧
    (orderCancel orderC 10).statusUpdatedAt = some 5 ∧
    (5 : Nat) ≠ 10 :=
  ⟨rfl, by decide, rfl, rfl, by decide⟩

/-- Claim C8, amended: a status update through the order PUT handler with
a valid status records the change instant in `statusUpdatedAt`, separately
from `updatedAt`; cancellation through the DELETE handler overwrites the
status to `cancelled` and refreshes `updatedAt` but leaves
`statusUpdatedAt` untouched. -/
theorem c8_status_timestamps (o : OrderDoc) (body : OrderUpdateBody)
    (now : Nat) (s : String)
    (hs : body.status = some s) (hv : s ∈ validStatuses)
    (o₂ : OrderDoc) (now₂ : Nat) :
    orderPut o body now = Except.ok
      { o with status := s, notes := body.notes.getD o.notes,
               updatedAt := now, statusUpdatedAt := some now } ∧
    (orderCancel o₂ now₂).status = "cancelled" ∧
    (orderCancel o₂ now₂).updatedAt = now₂ ∧
    (orderCancel o₂ now₂).statusUpdatedAt = o₂.statusUpdatedAt := by
  have hne : s ≠ "" := by
    intro he
    subst he
    revert hv
    decide
  have hcon : validStatuses.contains s = true := by simpa using hv
  exact ⟨by simp [orderPut, hs, hne, hcon, hv], rfl, rfl, rfl⟩

/-- Witness for `c8_status_timestamps` on `orderC`, updating the status to
`delivered` at instant 10 and cancelling at instant 11. -/
theorem c8_status_timestamps_witness :
    orderPut orderC { status := some "delivered" } 10 = Except.ok
      { orderC with status := "delivered",
                    notes := (({ status := some "delivered" } :
                      OrderUpdateBody)).notes.getD orderC.notes,
                    updatedAt := 10, statusUpdatedAt := some 10 } ∧
    (orderCancel orderC 11).status = "cancelled" ∧
    (orderCancel orderC 11).updatedAt = 11 ∧
    (orderCancel orderC 11).statusUpdatedAt = orderC.statusUpdatedAt :=
  c8_status_timestamps orderC { status := some "delivered" } 10 "delivered"
    rfl (by decide) orderC 11

/-- A create request carrying a negative price with every required field
present and non-empty. -/
def prodBodyNeg : ProductCreateBody :=
  { productId := some "p-100", name := some "Lamp", description := some "Desk lamp",
    price := some (-5), category := some "home", image := some "lamp.png" }

/-- The product the create handler stores for `prodBodyNeg`. -/
def prodNeg : ProductDoc :=
  { productId := "p-100", name := "Lamp", description := "Desk lamp",
    price := -5, category := "home", image := "lamp.png",
    rating := 0, reviews := 0 }

/-- Counterexample to C9 as stated: the create handler accepts a negative
price — the request succeeds and stores price −5 instead of failing with
ValidationFailure (it only checks truthiness of the fields, and −5 is
truthy). -/
theorem c9_counterexample :
    createProduct [] prodBodyNeg = Except.ok prodNeg ∧
    prodNeg.price < 0 :=
  ⟨rfl, by decide⟩

/-- Claim C9, amended: a negative price is rejected with ValidationFailure
by the product *update* handler only; the *create* handler accepts it
(see `c9_counterexample`).  A duplicate product identifier on create is
reported distinctly (its own `duplicateId` error, HTTP 400, message
`'Product ID already exists.'`), not as the generic 500 internal
failure. -/
theorem c9_price_and_duplicate (p : ProductDoc) (bodyU : ProductUpdateBody)
    (nm : String) (pr : Int)
    (hn : bodyU.name = some nm) (hnb : jsTrim nm ≠ "")
    (hp : bodyU.price = some pr) (hneg : pr < 0)
    (existing : List ProductDoc) (bodyC : ProductCreateBody)
    (pid nm2 ds cat img : String) (pr2 : Int)
    (h1 : bodyC.productId = some pid) (h2 : bodyC.name = some nm2)
    (h3 : bodyC.description = some ds) (h4 : bodyC.price = some pr2)
    (h5 : bodyC.category = some cat) (h6 : bodyC.image = some img)
    (hpid : pid ≠ "") (hnm2 : nm2 ≠ "") (hds : ds ≠ "") (hpr2 : pr2 ≠ 0)
    (hcat : cat ≠ "") (himg : img ≠ "")
    (hdup : existing.any (fun q => q.productId == pid) = true) :
    updateProduct p bodyU = Except.error ProductError.negativePrice ∧
    createProduct existing bodyC = Except.error ProductError.duplicateId ∧
    productErrorStatus ProductError.negativePrice = 400 ∧
    ProductError.duplicateId ≠ ProductError.internal ∧
    productErrorStatus ProductError.internal = 500 := by
  have hz : pr ≠ 0 := by omega
  refine ⟨?_, ?_, rfl, by decide, rfl⟩
  · simp [updateProduct, hn, hnb, hp, hz, hneg]
  · simp [createProduct, h1, h2, h3, h4, h5, h6, hpid, hnm2, hds, hpr2,
      hcat, himg, hdup]

/-- A stored product whose id collides with `prodBodyNeg`-like creates. -/
def prodExisting : ProductDoc :=
  { productId := "p-200", name := "Chair", description := "Oak chair",
    price := 30, category := "home", image := "chair.png",
    rating := 0, reviews := 0 }

/-- Witness for `c9_price_and_duplicate` on concrete requests: a negative
price on update, and a create colliding with `prodExisting`. -/
theorem c9_price_and_duplicate_witness :
    updateProduct prodExisting { name := some "Chair", price := some (-3) } =
      Except.error ProductError.negativePrice ∧
    createProduct [prodExisting]
      { productId := some "p-200", name := some "Stool",
        description := some "Pine stool", price := some 12,
        category := some "home", image := some "stool.png" } =
      Except.error ProductError.duplicateId ∧
    productErrorStatus ProductError.negativePrice = 400 ∧
    ProductError.duplicateId ≠ ProductError.internal ∧
    productErrorStatus ProductError.internal = 500 :=
  c9_price_and_duplicate prodExisting _ "Chair" (-3) rfl (by decide) rfl
    (by decide) [prodExisting] _ "p-200" "Stool" "Pine stool" "home"
    "stool.png" 12 rfl rfl rfl rfl rfl rfl (by decide) (by decide)
    (by decide) (by decide) (by decide) (by decide) (by decide)

/-- A create request with price 0 and every other required field present
and valid. -/
def prodBodyZero : ProductCreateBody :=
  { productId := some "p-300", name := some "Sticker", description := some "Vinyl",
    price := some 0, category := some "stationery", image := some "s.png" }

/-- Claim C10: any create request whose price is 0 is rejected with the
missing-required-fields error (JS truthiness treats 0 as absent), no
matter what the other fields hold; no product is created. -/
theorem c10_zero_price_missing_fields (existing : List ProductDoc)
    (body : ProductCreateBody) (hp : body.price = some 0) :
    createProduct existing body = Except.error ProductError.missingFields := by
  rcases h1 : body.productId with _ | pid <;>
    rcases h2 : body.name with _ | nm <;>
      rcases h3 : body.description with _ | ds <;>
        rcases h5 : body.category with _ | cat <;>
          rcases h6 : body.image with _ | img <;>
            simp [createProduct, h1, h2, h3, hp, h5, h6]

/-- Witness for `c10_zero_price_missing_fields` at a fully valid request
apart from the zero price. -/
theorem c10_zero_price_missing_fields_witness :
    createProduct [] prodBodyZero = Except.error ProductError.missingFields :=
  c10_zero_price_missing_fields [] prodBodyZero rfl

/-- Partial state of the pre-save repair loop: entries at absolute index
`< k` already overwritten with flag `index = f`, later entries untouched;
`j` is the absolute index of the head. -/
def markUpTo (f k : Nat) : Nat → List Address → List Address
  | _, [] => []
  | j, a :: t =>
      (if j < k then setFlag (decide (j = f)) a else a) :: markUpTo f k (j + 1) t

theorem markUpTo_length (f k j : Nat) (l : List Address) :
    (markUpTo f k j l).length = l.length := by
  induction l generalizing j with
  | nil => rfl
  | cons a t ih => simp [markUpTo, ih]

theorem markUpTo_zero (f j : Nat) (l : List Address) :
    markUpTo f 0 j l = l := by
  induction l generalizing j with
  | nil => rfl
  | cons a t ih => simp [markUpTo, ih]

theorem get_markUpTo (f k j : Nat) (l : List Address) (i : Nat)
    (h : i < (markUpTo f k j l).length) (h' : i < l.length) :
    (markUpTo f k j l).get ⟨i, h⟩ =
      if j + i < k then setFlag (decide (j + i = f)) (l.get ⟨i, h'⟩)
      else l.get ⟨i, h'⟩ := by
  induction l generalizing i j with
  | nil => cases h'
  | cons a t ih =>
    cases i with
    | zero => simp [markUpTo]
    | succ m =>
      have hm : m < (markUpTo f k (j + 1) t).length := by
        simpa [markUpTo] using h
      have hm' : m < t.length := by simpa using h'
      have := ih (j + 1) m hm hm'
      simpa [markUpTo, Nat.add_assoc, Nat.add_comm 1 m] using this

theorem markList_length (f j : Nat) (l : List Address) :
    (markList f j l).length = l.length := by
  induction l generalizing j with
  | nil => rfl
  | cons a t ih => simp [markList, ih]

theorem get_markList (f j : Nat) (l : List Address) (i : Nat)
    (h : i < (markList f j l).length) (h' : i < l.length) :
    (markList f j l).get ⟨i, h⟩ =
      setFlag (decide (j + i = f)) (l.get ⟨i, h'⟩) := by
  induction l generalizing i j with
  | nil => cases h'
  | cons a t ih =>
    cases i with
    | zero => simp [markList]
    | succ m =>
      have hm : m < (markList f (j + 1) t).length := by
        simpa [markList] using h
      have hm' : m < t.length := by simpa using h'
      have := ih (j + 1) m hm hm'
      simpa [markList, Nat.add_assoc, Nat.add_comm 1 m] using this

theorem markUpTo_full (f k j : Nat) (l : List Address)
    (hk : j + l.length ≤ k) : markUpTo f k j l = markList f j l := by
  induction l generalizing j with
  | nil => rfl
  | cons a t ih =>
    have hj : j < k := by simp at hk; omega
    have ht : (j + 1) + t.length ≤ k := by simp at hk; omega
    simp [markUpTo, markList, hj, ih (j + 1) ht]

theorem findIdx_eq_of (l : List Address) (f : Nat) (hf : f < l.length)
    (hget : (l.get ⟨f, hf⟩).isDefault = true)
    (hbefore : ∀ i (hi : i < l.length), i < f →
      (l.get ⟨i, hi⟩).isDefault = false) :
    List.findIdx (fun a => a.isDefault) l = f := by
  induction l generalizing f with
  | nil => cases hf
  | cons a t ih =>
    cases f with
    | zero =>
      have ha : a.isDefault = true := hget
      simp [List.findIdx_cons, ha]
    | succ m =>
      have ha : a.isDefault = false := by
        have := hbefore 0 (by simp) (Nat.succ_pos m)
        simpa using this
      have hm : m < t.length := by simpa using hf
      have hgt : (t.get ⟨m, hm⟩).isDefault = true := hget
      have hbt : ∀ i (hi : i < t.length), i < m →
          (t.get ⟨i, hi⟩).isDefault = false := by
        intro i hi him
        have := hbefore (i + 1) (by simpa using Nat.succ_lt_succ hi)
          (Nat.succ_lt_succ him)
        simpa using this
      simp [List.findIdx_cons, ha, ih m hm hgt hbt]

theorem findIdx_markUpTo (k : Nat) (l : List Address)
    (hf : List.findIdx (fun a => a.isDefault) l < l.length) :
    List.findIdx (fun a => a.isDefault)
      (markUpTo (List.findIdx (fun a => a.isDefault) l) k 0 l) =
      List.findIdx (fun a => a.isDefault) l := by
  have hlen : List.findIdx (fun a => a.isDefault) l <
      (markUpTo (List.findIdx (fun a => a.isDefault) l) k 0 l).length := by
    rw [markUpTo_length]; exact hf
  apply findIdx_eq_of _ _ hlen
  · rw [get_markUpTo _ k 0 l _ hlen hf]
    have hd : (l[List.findIdx (fun a => a.isDefault) l]).isDefault = true :=
      List.findIdx_getElem (w := hf)
    by_cases hk : List.findIdx (fun a => a.isDefault) l < k <;>
      simp [hk, setFlag_isDefault, hd]
  · intro i hi hif
    have hi' : i < l.length := by rw [markUpTo_length] at hi; exact hi
    rw [get_markUpTo _ k 0 l i hi hi']
    have hbd : (l[i]).isDefault = false :=
      List.not_of_lt_findIdx hif
    have hne : ¬ i = List.findIdx (fun a => a.isDefault) l := by omega
    by_cases hk : i < k <;> simp [hk, setFlag_isDefault, hbd, hne]

theorem setAt_markUpTo_step (f k : Nat) (l : List Address) :
    setAt (markUpTo f k 0 l) k (setFlag (decide (k = f))) =
      markUpTo f (k + 1) 0 l := by
  apply List.ext_get
  · rw [setAt_length, markUpTo_length, markUpTo_length]
  · intro i h1 h2
    have hi : i < l.length := by
      rw [setAt_length, markUpTo_length] at h1; exact h1
    have hm : i < (markUpTo f k 0 l).length := by
      rw [markUpTo_length]; exact hi
    rw [get_setAt _ k _ i h1 hm, get_markUpTo f (k + 1) 0 l i h2 hi,
      get_markUpTo f k 0 l i hm hi]
    by_cases hik : i = k
    · subst hik
      have h1' : ¬ (0 + i < i) := by omega
      have h2' : 0 + i < i + 1 := by omega
      simp [h1', h2']
    · rw [if_neg hik]
      by_cases hk : i < k
      · simp [hk, (by omega : i < k + 1)]
      · rw [if_neg (by omega : ¬ 0 + i < k), if_neg (by omega : ¬ 0 + i < k + 1)]

theorem preSaveFix_fold (l : List Address)
    (hf : List.findIdx (fun a => a.isDefault) l < l.length) (k : Nat) :
    List.foldl
      (fun acc i => setAt acc i (setFlag (decide (i = firstDefaultIdx acc))))
      l (List.range k) =
      markUpTo (List.findIdx (fun a => a.isDefault) l) k 0 l := by
  induction k with
  | zero => rw [List.range_zero, List.foldl_nil, markUpTo_zero]
  | succ n ih =>
    rw [List.range_succ, List.foldl_append, ih, List.foldl_cons, List.foldl_nil]
    have hfm : firstDefaultIdx
        (markUpTo (List.findIdx (fun a => a.isDefault) l) n 0 l) =
        List.findIdx (fun a => a.isDefault) l := findIdx_markUpTo n l hf
    rw [hfm]
    exact setAt_markUpTo_step _ n l

theorem countDefaults_markList (f j : Nat) (l : List Address) :
    countDefaults (markList f j l) =
      if j ≤ f ∧ f < j + l.length then 1 else 0 := by
  induction l generalizing j with
  | nil =>
    simp only [markList, countDefaults_nil, List.length_nil]
    split
    · omega
    · rfl
  | cons a t ih =>
    simp only [markList, countDefaults_cons, setFlag_isDefault,
      decide_eq_true_eq, ih (j + 1), List.length_cons]
    repeat' split
    all_goals omega

/-- Claim C7: when a user document with more than one default address is
about to be saved, the pre-save hook keeps exactly the first default (by
list order) and clears the flag of every other address, leaving every
other field untouched: the saved list is `markList (firstDefaultIdx l) 0 l`,
whose entry `j` is entry `j` of the input with its flag replaced by
`j = firstDefaultIdx l`. -/
theorem c7_presave_keeps_first_default (l : List Address)
    (h : 1 < countDefaults l) :
    preSaveAddresses l = markList (firstDefaultIdx l) 0 l ∧
    countDefaults (preSaveAddresses l) = 1 ∧
    (∀ j (hj : j < (preSaveAddresses l).length) (hj' : j < l.length),
      (preSaveAddresses l).get ⟨j, hj⟩ =
        setFlag (decide (j = firstDefaultIdx l)) (l.get ⟨j, hj'⟩)) := by
  have hex : ∃ x ∈ l, (fun a => a.isDefault) x = true :=
    List.countP_pos_iff.mp (by
      have : 1 < List.countP (fun a => a.isDefault) l := h
      omega)
  have hf : List.findIdx (fun a => a.isDefault) l < l.length :=
    List.findIdx_lt_length_of_exists hex
  have hps : preSaveAddresses l = preSaveFix l := by
    simp [preSaveAddresses, h]
  have hfix : preSaveFix l =
      markList (List.findIdx (fun a => a.isDefault) l) 0 l := by
    rw [preSaveFix, preSaveFix_fold l hf l.length]
    exact markUpTo_full _ _ _ _ (by omega)
  have hmark : preSaveAddresses l = markList (firstDefaultIdx l) 0 l := by
    rw [hps, hfix]; rfl
  refine ⟨hmark, ?_, ?_⟩
  · rw [hmark, countDefaults_markList]
    rw [if_pos ⟨Nat.zero_le _, by simpa [firstDefaultIdx] using hf⟩]
  · intro j hj hj'
    have hstep := List.get_of_eq hmark ⟨j, hj⟩
    rw [hstep, get_markList _ 0 l j _ hj']
    simp

/-- Witness for `c7_presave_keeps_first_default` on the concrete list
`[addrA (default), addrB with its flag forced on]` (two defaults). -/
theorem c7_presave_keeps_first_default_witness :
    preSaveAddresses [addrA, setFlag true addrB] =
      markList (firstDefaultIdx [addrA, setFlag true addrB]) 0
        [addrA, setFlag true addrB] ∧
    countDefaults (preSaveAddresses [addrA, setFlag true addrB]) = 1 ∧
    (∀ j (hj : j < (preSaveAddresses [addrA, setFlag true addrB]).length)
      (hj' : j < ([addrA, setFlag true addrB] : List Address).length),
      (preSaveAddresses [addrA, setFlag true addrB]).get ⟨j, hj⟩ =
        setFlag (decide (j = firstDefaultIdx [addrA, setFlag true addrB]))
          (([addrA, setFlag true addrB] : List Address).get ⟨j, hj'⟩)) :=
  c7_presave_keeps_first_default [addrA, setFlag true addrB] (by decide)
